import Mathlib

namespace ShipmentQnaBot

/-!
# Verification of the shipment_qna_bot retrieval orchestrator

Shallow embedding of the security-scope resolution, retrieval, planning,
judging and normalization logic of the `shipment_qna_bot` repository,
together with theorems settling the specification claims.

Conventions:
* Python strings are Lean `String`s; `str.strip()` is `strTrim`,
  `str.lower()` is `strLower` (ASCII case folding).
* Python `None` becomes `Option.none`; falsiness of containers is
  explicit emptiness tests.
* External network calls (chat completion, embeddings, the search
  engine) are oracle parameters; the embeddings record which calls were
  issued so that "no query issued" claims are statable.
-/

/-! ## String primitives (model of Python `str.strip` / `str.lower`) -/

def isSpc (c : Char) : Bool := c.isWhitespace

def trimChars (cs : List Char) : List Char :=
  (cs.dropWhile isSpc).rdropWhile isSpc

def strTrim (s : String) : String := ⟨trimChars s.data⟩

def strLower (s : String) : String := ⟨s.data.map Char.toLower⟩

/-- Substring containment, model of Python's `needle in haystack`. -/
def strContains (hay needle : String) : Bool :=
  decide (needle.data <:+: hay.data)

/-! ## security/scope.py -/

/-- The `payload_codes` argument of `resolve_allowed_scope`: a string,
a list of strings, or a value of any other type. -/
inductive Payload
  | str (s : String)
  | list (l : List String)
  | other
deriving DecidableEq

/-- Environment-derived configuration of `security/scope.py`:
the `SHIPMENT_QNA_BOT_ALLOW_UNSAFE_SCOPE` flag and the loaded
identity registry (`_load_identity_registry`; empty list models a
missing/empty registry, which is falsy in the source). -/
structure ScopeConfig where
  allowUnsafeScope : Bool
  registry : List (String × List String)
deriving DecidableEq

/-- Python truthiness test `if not payload_codes`. -/
def payloadFalsy : Option Payload → Bool
  | none => true
  | some (.str s) => s = ""
  | some (.list l) => l.isEmpty
  | some .other => false

/-- The `else: return []` branch for an invalid `payload_codes` type. -/
def payloadInvalid : Option Payload → Bool
  | some .other => true
  | _ => false

/-- Normalization of the payload to a list of stripped, non-empty codes
(`scope.py` lines 79-86). -/
def requestedCodes : Option Payload → List String
  | none => []
  | some (.str s) => ((s.splitOn ",").map strTrim).filter (fun c => c ≠ "")
  | some (.list l) => (l.map strTrim).filter (fun c => c ≠ "")
  | some .other => []

/-- De-duplication preserving first-occurrence order
(`scope.py` lines 89-90, the `seen` set comprehension). -/
def dedupAux (seen : List String) : List String → List String
  | [] => []
  | c :: rest =>
    if c ∈ seen then dedupAux seen rest
    else c :: dedupAux (c :: seen) rest

def dedupPreserveOrder (l : List String) : List String := dedupAux [] l

/-- Python truthiness test `if not user_identity`. -/
def identityFalsy : Option String → Bool
  | none => true
  | some s => s = ""

/-- `registry.get(user_identity) or registry.get("*") or []`, followed by
`[c for c in allowed_codes if c]` (`scope.py` lines 116-117). -/
def lookupRegistry (reg : List (String × List String)) (k : String) :
    Option (List String) :=
  (reg.find? (fun p => p.1 = k)).map Prod.snd

def allowedCodesFor (cfg : ScopeConfig) (ident : String) : List String :=
  let a : Option (List String) :=
    match lookupRegistry cfg.registry ident with
    | some l => if l.isEmpty then lookupRegistry cfg.registry "*" else some l
    | none => lookupRegistry cfg.registry "*"
  (a.getD []).filter (fun c => c ≠ "")

/-- Embedding of `resolve_allowed_scope` (`security/scope.py` lines 50-136),
translated branch by branch from the source.  Note that the
missing-identity branch (source lines 92-100) returns the payload codes
unconditionally. -/
def resolve_allowed_scope (cfg : ScopeConfig) (user_identity : Option String)
    (payload_codes : Option Payload) : List String :=
  if payloadFalsy payload_codes then []
  else if payloadInvalid payload_codes then []
  else
    let codes := dedupPreserveOrder (requestedCodes payload_codes)
    if identityFalsy user_identity then codes
    else if cfg.registry.isEmpty then
      if cfg.allowUnsafeScope then codes else []
    else
      let allowed := allowedCodesFor cfg (user_identity.getD "")
      let effective :=
        if "*" ∈ allowed then codes else codes.filter (fun c => c ∈ allowed)
      if effective.isEmpty then [] else effective

/-! ## graph/nodes/retrieve.py — filter safety allow-list -/

/-- `_FILTER_FIELDS` (`retrieve.py` lines 22-61). -/
def FILTER_FIELDS : List String :=
  ["container_number", "po_numbers", "booking_numbers", "obl_nos",
   "shipment_status", "hot_container_flag", "container_type",
   "destination_service", "load_port", "final_load_port", "discharge_port",
   "last_cy_location", "place_of_receipt", "place_of_delivery",
   "final_destination", "first_vessel_name", "final_carrier_name",
   "final_vessel_name", "true_carrier_scac_name", "etd_lp_date",
   "etd_flp_date", "eta_dp_date", "eta_fd_date", "revised_eta",
   "atd_lp_date", "ata_flp_date", "atd_flp_date", "ata_dp_date",
   "supplier_vendor_name", "manufacturer_name", "ship_to_party_name",
   "job_type", "mcs_hbl", "transport_mode", "dp_delayed_dur",
   "fd_delayed_dur", "delayed_dp", "delayed_fd"]

/-- The keyword/operator allow-list of `_is_filter_safe`
(`retrieve.py` lines 73-90). -/
def FILTER_KEYWORDS : List String :=
  ["and", "or", "eq", "ne", "gt", "ge", "lt", "le", "any", "all", "in",
   "true", "false", "null", "contains", "search"]

/-- A regex word character (`[a-zA-Z0-9_]`, ASCII, matching the character
classes of the patterns in `retrieve.py`). -/
def isWordChar (c : Char) : Bool := c.isAlpha || c.isDigit || c = '_'

/-- Model of `re.sub(r"'[^']*'", "''", filter_str)`: each complete quoted
literal is replaced by `''`; an unterminated opening quote matches
nothing and the remainder is kept verbatim.  The `Nat` argument is
recursion fuel; every step consumes at least one character, so
`cs.length` fuel always suffices. -/
def scrubQuotesF : Nat → List Char → List Char
  | 0, cs => cs
  | _, [] => []
  | fuel + 1, c :: rest =>
    if c = '\'' then
      match rest.findIdx? (fun d => d = '\'') with
      | none => c :: rest
      | some i => '\'' :: '\'' :: scrubQuotesF fuel (rest.drop (i + 1))
    else c :: scrubQuotesF fuel rest

def scrubQuotes (cs : List Char) : List Char := scrubQuotesF cs.length cs

/-- Maximal runs of word characters, fuelled like `scrubQuotesF`.
`re.findall(r"\b\w...\w\b", s)` over this character class returns
exactly the maximal word-character runs (each run is automatically
boundary-delimited). -/
def wordRunsF : Nat → List Char → List (List Char)
  | 0, _ => []
  | _, [] => []
  | fuel + 1, c :: rest =>
    if isWordChar c then
      (c :: rest.takeWhile isWordChar) :: wordRunsF fuel (rest.dropWhile isWordChar)
    else wordRunsF fuel rest

def wordRuns (cs : List Char) : List (List Char) := wordRunsF cs.length cs

/-- Model of `re.findall(r"\b[a-zA-Z_][a-zA-Z0-9_]*\b", scrubbed)`
applied to the quote-scrubbed filter string: the maximal word-character
runs whose first character is a letter or underscore (a run starting
with a digit cannot match, since the pattern's first character class
excludes digits and no word boundary occurs inside a run). -/
def filterTokens (s : String) : List String :=
  ((wordRuns (scrubQuotes s.data)).filter
    (fun r => match r with
      | c :: _ => c.isAlpha || c = '_'
      | [] => false)).map (fun r => ⟨r⟩)

/-- Embedding of `_is_filter_safe` (`retrieve.py` lines 64-98). -/
def is_filter_safe (filter_str : String) : Bool :=
  if filter_str = "" then true
  else
    let tokens := filterTokens filter_str
    if tokens.isEmpty then true
    else tokens.all (fun t =>
      decide (t ∈ FILTER_KEYWORDS) || t.length == 1 || decide (t ∈ FILTER_FIELDS))

/-! ## graph/nodes/retrieve.py — hits, dates and the post-filter -/

/-- Abstract field value carried by a search hit, classified by how the
Python helpers treat it: `date t` is an ISO datetime string that
`datetime.fromisoformat` parses to UTC timestamp `t` (whole seconds),
`num q` a value `float()` accepts, `text` any other string, `notATime`
the literal `"NaT"`, and `empty` a falsy value (`None`/`""`). -/
inductive FieldVal
  | date (t : Int)
  | num (q : ℚ)
  | text (s : String)
  | notATime
  | empty
deriving DecidableEq

/-- Embedding of `_parse_dt` (`retrieve.py` lines 188-198): falsy values
and `"NaT"` yield `None`, only ISO datetime strings parse. -/
def parseDt : Option FieldVal → Option Int
  | some (.date t) => some t
  | _ => none

/-- `float(_get_field(field) or 0.0)` with the surrounding
`try/except` that falls back to `0.0` (`retrieve.py` lines 277-280). -/
def fieldFloat : Option FieldVal → ℚ
  | some (.num q) => q
  | _ => 0

/-- A search hit: top-level document fields plus the parsed
`metadata_json` side-map (empty when missing or unparsable, as in
`_load_metadata`). -/
structure Hit where
  top : List (String × FieldVal)
  meta : List (String × FieldVal)
deriving DecidableEq

def lookupField (m : List (String × FieldVal)) (name : String) :
    Option FieldVal :=
  (m.find? (fun p => p.1 = name)).map Prod.snd

/-- `_get_field` of `_post_filter_hits`: top-level first, then the
metadata side-map (`retrieve.py` lines 254-257). -/
def getField (h : Hit) (name : String) : Option FieldVal :=
  match lookupField h.top name with
  | some v => some v
  | none => lookupField h.meta name

/-- The keys `_hydrate_hit` promotes (`retrieve.py` lines 229-240). -/
def HYDRATE_KEYS : List String :=
  ["optimal_ata_dp_date", "optimal_eta_fd_date", "dp_delayed_dur",
   "fd_delayed_dur", "delayed_dp", "delayed_fd",
   "empty_container_return_date", "eta_dp_date", "eta_fd_date",
   "ata_dp_date"]

def hydrateTop (meta : List (String × FieldVal)) :
    List (String × FieldVal) → List String → List (String × FieldVal)
  | top, [] => top
  | top, k :: ks =>
    let top' :=
      if (lookupField top k).isNone then
        match lookupField meta k with
        | some v => top ++ [(k, v)]
        | none => top
      else top
    hydrateTop meta top' ks

/-- Embedding of `_hydrate_hit` (`retrieve.py` lines 227-242). -/
def hydrate (h : Hit) : Hit :=
  { h with top := hydrateTop h.meta h.top HYDRATE_KEYS }

structure DateWindow where
  field : String
  days : Int
  direction : String
deriving DecidableEq

structure DelayRule where
  field : String
  op : String
  days : ℚ
deriving DecidableEq

structure PostFilter where
  date_window : Option DateWindow
  delay : Option DelayRule
deriving DecidableEq

/-- Python truthiness of the `post_filter` dict. -/
def pfTruthy (pf : PostFilter) : Bool :=
  pf.date_window.isSome || pf.delay.isSome

/-- The date-window test of `_post_filter_hits`
(`retrieve.py` lines 260-271): a missing/unparsable date excludes the
hit; for direction `"next"` the hit is kept iff its date lies in
`[start_of_today, start_of_today + days)`; any other direction leaves
the hit accepted. One day is 86400 seconds (`timedelta(days=days)`). -/
def dateOk (startOfToday : Int) (h : Hit) : Option DateWindow → Bool
  | none => true
  | some w =>
    match parseDt (getField h w.field) with
    | none => false
    | some t =>
      if w.direction = "next" then
        decide (startOfToday ≤ t) && decide (t < startOfToday + w.days * 86400)
      else true

/-- The delay-threshold test of `_post_filter_hits`
(`retrieve.py` lines 273-285). -/
def delayOk (h : Hit) : Option DelayRule → Bool
  | none => true
  | some r =>
    let val := fieldFloat (getField h r.field)
    if r.op = ">" then decide (val > r.days) else decide (val ≥ r.days)

/-- Embedding of `_post_filter_hits` (`retrieve.py` lines 244-289):
each hit is hydrated in place, then kept iff it passes the date-window
test and (only then) the delay test. -/
def postFilterHits (startOfToday : Int) (hits : List Hit)
    (pf : PostFilter) : List Hit :=
  if pfTruthy pf = false then hits
  else (hits.map hydrate).filter
    (fun h => dateOk startOfToday h pf.date_window && delayOk h pf.delay)

/-! ## graph/nodes/retrieve.py — the node itself -/

structure IdxAnalytics where
  count : Option Int
  facets : Option (List (String × Int))
deriving DecidableEq

structure RetrievalPlan where
  query_text : Option String
  top_k : Option Int
  vector_k : Option Int
  extra_filter : Option String
  post_filter : Option PostFilter
  include_total_count : Bool
  skip : Option Int
  order_by : Option String
deriving DecidableEq

/-- The empty dict that `state.get("retrieval_plan") or {}` produces. -/
def emptyPlan : RetrievalPlan :=
  { query_text := none, top_k := none, vector_k := none,
    extra_filter := none, post_filter := none,
    include_total_count := false, skip := none, order_by := none }

/-- The token-usage accumulator (`usage_metadata`). -/
structure Usage where
  prompt_tokens : Int
  completion_tokens : Int
  total_tokens : Int
deriving DecidableEq

def usageZero : Usage := { prompt_tokens := 0, completion_tokens := 0, total_tokens := 0 }

/-- `for k in usage: usage_metadata[k] = usage_metadata.get(k, 0) + usage[k]`. -/
def addUsage (a b : Usage) : Usage :=
  { prompt_tokens := a.prompt_tokens + b.prompt_tokens,
    completion_tokens := a.completion_tokens + b.completion_tokens,
    total_tokens := a.total_tokens + b.total_tokens }

/-- The slice of the graph state that the embedded nodes read or write,
plus fields other nodes own (which each node must leave unchanged). -/
structure RState where
  conversation_id : String
  question_raw : String
  normalized_question : Option String
  intent : String
  consignee_codes : List String
  retrieval_plan : Option RetrievalPlan
  now_utc : Option FieldVal
  hits : List Hit
  idx_analytics : Option IdxAnalytics
  errors : List String
  notices : List String
  answer_text : Option String
  is_satisfied : Option Bool
  reflection_feedback : Option String
  retry_count : Option Int
  usage_metadata : Option Usage
deriving DecidableEq

/-- One invocation of `AzureAISearchTool.search`, as issued by
`retrieve_node`. -/
structure SearchCall where
  query_text : String
  consignee_codes : List String
  top_k : Int
  vector : Option (List ℚ)
  vector_k : Int
  extra_filter : Option String
  include_total_count : Bool
  skip : Option Int
  order_by : Option String
deriving DecidableEq

structure SearchResponse where
  hits : List Hit
  count : Option Int
  facets : Option (List (String × Int))
deriving DecidableEq

/-- External environment of `retrieve_node`: the test-mode flag, the
embedding client, the search engine, and the wall clock (used only when
the state carries no `now_utc`). -/
structure REnv where
  testMode : Bool
  embed : String → Except Unit (List ℚ)
  search : SearchCall → Except String SearchResponse
  wallClock : Int

/-- Result of running `retrieve_node`: the new state plus the trace of
search-engine calls and the number of embedding calls issued. -/
structure RResult where
  state : RState
  searchCalls : List SearchCall
  embedCalls : Nat
deriving DecidableEq

/-- Python `a or b` on strings. -/
def orStr (a b : String) : String := if a = "" then b else a

/-- Embedding of `_get_now_utc` (`retrieve.py` lines 200-211): the
state's `now_utc` is used when present and parsable, the wall clock
otherwise. -/
def getNowUtc (env : REnv) (s : RState) : Int :=
  (parseDt s.now_utc).getD env.wallClock

/-- `now_utc.replace(hour=0, minute=0, second=0, microsecond=0)` on a
UTC datetime: flooring the timestamp to a multiple of 86400. -/
def startOfDay (t : Int) : Int := t - t % 86400

/-- `retrieve.py` lines 156-162: the plan's `extra_filter`, stripped,
`None` when blank, and dropped entirely when `_is_filter_safe`
rejects it. -/
def planExtraFilter (s : RState) : Option String :=
  let plan := s.retrieval_plan.getD emptyPlan
  let ef := strTrim (plan.extra_filter.getD "")
  if ef = "" then none
  else if is_filter_safe ef then some ef else none

/-- `retrieve.py` lines 304-318 (and 344-358): hydrate the returned
hits, apply the post-filter when the plan carries a truthy one, and
store the hit list and the aggregate block. -/
def applyResponse (s : RState) (plan : RetrievalPlan) (startOfToday : Int)
    (resp : SearchResponse) : RState :=
  let hits := resp.hits.map hydrate
  let hits :=
    match plan.post_filter with
    | some pf => if pfTruthy pf then postFilterHits startOfToday hits pf else hits
    | none => hits
  { s with
    hits := hits,
    idx_analytics := some
      { count := if plan.include_total_count then resp.count else some hits.length,
        facets := resp.facets } }

/-- `retrieve.py` lines 367-377: the complete-failure path. -/
def failState (s : RState) (msg : String) : RState :=
  { s with
    errors := s.errors ++ ["Search failed: " ++ msg],
    hits := [],
    notices := s.notices ++
      ["Note: Search encountered a temporary issue. Some data might be missing."] }

/-- Embedding of `retrieve_node` (`retrieve.py` lines 123-379),
branch by branch from the source. -/
def analyticsSkipState (s : RState) : RState :=
  { s with
    hits := [],
    idx_analytics := some { count := some 0, facets := none } }

def emptyScopeState (s : RState) : RState :=
  { s with
    errors := s.errors ++ ["Missing consignee scope; cannot retrieve."],
    hits := [] }

/-- `(plan.get("query_text") or state.get("normalized_question") or "").strip()`
(`retrieve.py` lines 153-155). -/
def retrieveQueryText (s : RState) : String :=
  strTrim (orStr ((s.retrieval_plan.getD emptyPlan).query_text.getD "")
    (s.normalized_question.getD ""))

/-- The embedding call with its keyword-only fallback
(`retrieve.py` lines 177-186). -/
def retrieveVector (env : REnv) (s : RState) : Option (List ℚ) :=
  match env.embed (retrieveQueryText s) with
  | .ok v => some v
  | .error _ => none

/-- The keyword arguments of the first `tool.search` invocation
(`retrieve.py` lines 293-303). -/
def retrieveCall1 (env : REnv) (s : RState) : SearchCall :=
  { query_text := orStr (retrieveQueryText s) "*",
    consignee_codes := s.consignee_codes,
    top_k := (s.retrieval_plan.getD emptyPlan).top_k.getD 8,
    vector := retrieveVector env s,
    vector_k := (s.retrieval_plan.getD emptyPlan).vector_k.getD 30,
    extra_filter := planExtraFilter s,
    include_total_count := (s.retrieval_plan.getD emptyPlan).include_total_count,
    skip := (s.retrieval_plan.getD emptyPlan).skip,
    order_by := (s.retrieval_plan.getD emptyPlan).order_by }

def retrieve_node (env : REnv) (s : RState) : RResult :=
  if s.intent = "analytics" then
    { state := analyticsSkipState s, searchCalls := [], embedCalls := 0 }
  else if s.consignee_codes.isEmpty then
    { state := emptyScopeState s, searchCalls := [], embedCalls := 0 }
  else if env.testMode then
    { state := analyticsSkipState s, searchCalls := [], embedCalls := 0 }
  else
    let plan := s.retrieval_plan.getD emptyPlan
    let start := startOfDay (getNowUtc env s)
    let call1 := retrieveCall1 env s
    match env.search call1 with
    | .ok resp =>
      { state := applyResponse s plan start resp,
        searchCalls := [call1], embedCalls := 1 }
    | .error msg =>
      if call1.extra_filter.isSome &&
          (strContains msg "Invalid expression" || strContains msg "search.in") then
        match env.search { call1 with extra_filter := none } with
        | .ok resp =>
          { state := applyResponse s plan start resp,
            searchCalls := [call1, { call1 with extra_filter := none }],
            embedCalls := 1 }
        | .error _ =>
          { state := failState s msg,
            searchCalls := [call1, { call1 with extra_filter := none }],
            embedCalls := 1 }
      else
        { state := failState s msg,
          searchCalls := [call1], embedCalls := 1 }

/-! ## tools/azure_ai_search.py — the consignee (RLS) filter -/

/-- Field-related configuration of `AzureAISearchTool`
(environment variables, `azure_ai_search.py` lines 60-66). -/
structure SearchToolConfig where
  consigneeField : String
  consigneeIsCollection : Bool
deriving DecidableEq

/-- Modelled from the spec: `build_search_filter` lives in
`security/rls.py`, which is absent from the source tree (only its
callers and the tests `test_build_search_filter_*` are present).  Per
spec §6 the authorization predicate over a collection field is an
any-element-in-set form rendering to an always-false predicate on an
empty scope; the repository tests pin the concrete shape
`field/any(t: search.in(t, 'a,b', ','))` and `"false"` for `[]`. -/
def build_search_filter (allowed_codes : List String)
    (field_name : String) : String :=
  if allowed_codes.isEmpty then "false"
  else
    field_name ++ "/any(t: search.in(t, '" ++
      String.intercalate "," allowed_codes ++ "', ','))"

/-- Embedding of `AzureAISearchTool._consignee_filter`
(`azure_ai_search.py` lines 71-95). -/
def consigneeFilter (cfg : SearchToolConfig) (codes : List String) : String :=
  if codes.isEmpty then "false"
  else
    let clean := (codes.filter (fun c => c ≠ "" && strTrim c ≠ "")).map strTrim
    if clean.isEmpty then "false"
    else if cfg.consigneeIsCollection then
      build_search_filter clean cfg.consigneeField
    else
      "search.in(" ++ cfg.consigneeField ++ ", '" ++
        String.intercalate "," (clean.map (fun c => c.replace "'" "''")) ++
        "', ',')"

/-- A fully concrete environment whose external services always fail,
and concrete states, used to instantiate the claims. -/
def envDown : REnv :=
  { testMode := false,
    embed := fun _ => .error (),
    search := fun _ => .error "service down",
    wallClock := 0 }

def stateBase : RState :=
  { conversation_id := "c1", question_raw := "where is my container?",
    normalized_question := some "where is my container?",
    intent := "status", consignee_codes := ["0025833"],
    retrieval_plan := none, now_utc := none, hits := [],
    idx_analytics := none, errors := [], notices := [],
    answer_text := none, is_satisfied := none, reflection_feedback := none,
    retry_count := none, usage_metadata := none }

/-- A state whose plan carries a filter with a disallowed field token,
and an environment whose search succeeds, to instantiate C3. -/
def stateUnsafeFilter : RState :=
  { stateBase with
    retrieval_plan := some
      { emptyPlan with extra_filter := some "secret_field eq 'x'" } }

def envOkSearch : REnv :=
  { testMode := false,
    embed := fun _ => .error (),
    search := fun _ => .ok { hits := [], count := none, facets := none },
    wallClock := 0 }

/-! ## graph/nodes/judge.py -/

/-- The JSON object the Judge's evaluation pass returns:
`result.get("decision")` and `result.get("feedback")`. -/
structure JudgeVerdict where
  decision : Option String
  feedback : Option String
deriving DecidableEq

/-- The default verdict used when no JSON object can be extracted or
parsed from the response text (`judge.py` lines 133 and 136). -/
def defaultVerdict : JudgeVerdict :=
  { decision := some "satisfied", feedback := none }

/-- `judge.py` lines 126-136: take the slice from the first `{` to the
last `}` (Python's `rfind` returning `-1` makes the end index `0`, an
empty slice) and hand it to `json.loads`, modelled by the oracle `jp`
(which returns `none` when `json.loads` raises or the result is not an
object).  `none` overall means no JSON verdict could be parsed. -/
def judgeParsedVerdict (jp : String → Option JudgeVerdict) (text : String) :
    Option JudgeVerdict :=
  match text.data.findIdx? (fun d => d = '\x7b') with
  | none => none
  | some start =>
    let stop :=
      match text.data.reverse.findIdx? (fun d => d = '\x7d') with
      | some i => text.data.length - i
      | none => 0
    jp ⟨(text.data.take stop).drop start⟩

/-- Result of running `judge_node`: the new state plus the number of
chat-completion (evaluation service) calls issued. -/
structure JResult where
  state : RState
  chatCalls : Nat
deriving DecidableEq

/-- Embedding of `judge_node` (`graph/nodes/judge.py` lines 20-152).
`tm` is `is_test_mode()`; `chat` the outcome of
`chat_tool.chat_completion` (response content and token usage, or an
exception); `jp` the `json.loads` oracle. -/
def judge_node (tm : Bool) (chat : Except Unit (String × Usage))
    (jp : String → Option JudgeVerdict) (s : RState) : JResult :=
  if tm then
    { state := { s with is_satisfied := some true, reflection_feedback := none },
      chatCalls := 0 }
  else if s.hits.isEmpty then
    { state := { s with is_satisfied := some true, reflection_feedback := none },
      chatCalls := 0 }
  else
    match chat with
    | .error _ =>
      { state := { s with is_satisfied := some true, reflection_feedback := none },
        chatCalls := 1 }
    | .ok (content, usage) =>
      let s1 := { s with
        usage_metadata := some (addUsage (s.usage_metadata.getD usageZero) usage) }
      let v := (judgeParsedVerdict jp content).getD defaultVerdict
      let satisfied : Bool := v.decision = some "satisfied"
      let s2 := { s1 with
        is_satisfied := some satisfied,
        reflection_feedback := v.feedback }
      let s3 :=
        if satisfied then s2
        else { s2 with retry_count := some (s2.retry_count.getD 0 + 1) }
      { state := s3, chatCalls := 1 }

/-! ## Claim C4 -/

/-- Modelled from the spec: the reflection-loop wiring (the compiled
graph `graph_app` with its conditional edge after the Judge) is absent
from the source tree — `graph/builder.py` only wires a linear graph and
the scripts and tests import a `graph_app` that is not defined there.
Spec §4.9: the loop `plan → retrieve → answer → judge` re-enters `plan`
only when the Judge was not satisfied and the retry counter is still
below `max_retries`; `judge_node` increments the counter on every retry
verdict.  `sat a` is the Judge's verdict at planning attempt `a`
(counting from 0); the function returns the number of planning attempts
the turn performs from retry count `r`. -/
def turnLoopPlans (sat : Nat → Bool) (maxRetries : Nat) (a r : Nat) : Nat :=
  if sat a then 1
  else if maxRetries ≤ r + 1 then 1
  else 1 + turnLoopPlans sat maxRetries (a + 1) (r + 1)
termination_by maxRetries - r
decreasing_by omega

/-! ## Executable matchers for the regex fragments of
`graph/nodes/normalizer.py` and `graph/nodes/planner.py`.

A pattern is a nondeterministic prefix matcher: it returns the list of
possible remainders after consuming a match from the front of the
input.  `containsBounded` then implements `re.search` for patterns of
the shape `\b...\b` whose body starts and ends with word characters. -/

def pLit (lit : String) (cs : List Char) : List (List Char) :=
  if lit.data.isPrefixOf cs then [cs.drop lit.data.length] else []

def pSeq (p q : List Char → List (List Char)) (cs : List Char) :
    List (List Char) :=
  ((p cs).map q).flatten

/-- One or more characters satisfying `pc` (all backtracking splits). -/
def pPlus (pc : Char → Bool) (cs : List Char) : List (List Char) :=
  (List.range (cs.takeWhile pc).length).map (fun i => cs.drop (i + 1))

/-- Zero or more characters satisfying `pc`. -/
def pStar (pc : Char → Bool) (cs : List Char) : List (List Char) :=
  (List.range ((cs.takeWhile pc).length + 1)).map (fun i => cs.drop i)

/-- Exactly `n` characters satisfying `pc`. -/
def pCount (pc : Char → Bool) (n : Nat) (cs : List Char) : List (List Char) :=
  if (cs.take n).length == n && (cs.take n).all pc then [cs.drop n] else []

/-- Between `lo` and `hi` characters satisfying `pc`. -/
def pRange (pc : Char → Bool) (lo hi : Nat) (cs : List Char) :
    List (List Char) :=
  ((List.range (hi + 1 - lo)).map (fun j => lo + j)).filterMap
    (fun n =>
      if (cs.take n).length == n && (cs.take n).all pc then some (cs.drop n)
      else none)

/-- An optional single character (`c?`). -/
def pOptChar (c : Char) (cs : List Char) : List (List Char) :=
  match cs with
  | d :: rest => if d = c then [rest, cs] else [cs]
  | [] => [cs]

def matchEndsAtBoundary (p : List Char → List (List Char))
    (cs : List Char) : Bool :=
  (p cs).any (fun rest =>
    match rest with
    | [] => true
    | d :: _ => !isWordChar d)

def searchBounded (p : List Char → List (List Char)) :
    List Char → Bool → Bool
  | [], _ => false
  | c :: rest, bnd =>
    (bnd && matchEndsAtBoundary p (c :: rest)) ||
      searchBounded p rest (!isWordChar c)

def containsBounded (p : List Char → List (List Char)) (s : String) : Bool :=
  searchBounded p s.data true

def isLowerAZ (c : Char) : Bool := 'a' ≤ c && c ≤ 'z'

/-! ## graph/nodes/normalizer.py -/

/-- `_ANAPHORA_TOKENS` (`normalizer.py` lines 22-39). -/
def ANAPHORA_TOKENS : List String :=
  ["it", "its", "they", "them", "their", "those", "these", "that", "this",
   "same", "previous", "earlier", "above", "again", "continue", "follow up"]

/-- `_CONTROL_REPLIES` (`normalizer.py` lines 41-56). -/
def CONTROL_REPLIES : List String :=
  ["1", "2", "a", "b", "use previous", "use previous context", "use context",
   "previous", "same", "new", "new topic", "ignore", "ignore previous",
   "ignore previous context"]

/-- `_has_anaphora` (`normalizer.py` lines 59-61): plain substring
containment of any anaphora token in the lowered text. -/
def hasAnaphora (text : String) : Bool :=
  ANAPHORA_TOKENS.any (fun token => strContains (strLower text) token)

/-- `\bnext\s+\d+\s+days?\b` -/
def patNextNDays : List Char → List (List Char) :=
  pSeq (pLit "next") (pSeq (pPlus isSpc) (pSeq (pPlus Char.isDigit)
    (pSeq (pPlus isSpc) (pSeq (pLit "day") (pOptChar 's')))))

/-- `\bin\s+\d+\s+days?\b` -/
def patInNDays : List Char → List (List Char) :=
  pSeq (pLit "in") (pSeq (pPlus isSpc) (pSeq (pPlus Char.isDigit)
    (pSeq (pPlus isSpc) (pSeq (pLit "day") (pOptChar 's')))))

def patNextWeek : List Char → List (List Char) :=
  pSeq (pLit "next") (pSeq (pPlus isSpc) (pLit "week"))

def patNextMonth : List Char → List (List Char) :=
  pSeq (pLit "next") (pSeq (pPlus isSpc) (pLit "month"))

def patThisWeek : List Char → List (List Char) :=
  pSeq (pLit "this") (pSeq (pPlus isSpc) (pLit "week"))

def patThisMonth : List Char → List (List Char) :=
  pSeq (pLit "this") (pSeq (pPlus isSpc) (pLit "month"))

/-- `\b\d{4}-\d{2}-\d{2}\b` -/
def patIsoDate : List Char → List (List Char) :=
  pSeq (pCount Char.isDigit 4) (pSeq (pLit "-") (pSeq (pCount Char.isDigit 2)
    (pSeq (pLit "-") (pCount Char.isDigit 2))))

/-- `\b\d{1,2}-[a-z]{3}-\d{2,4}\b` -/
def patDmyDate : List Char → List (List Char) :=
  pSeq (pRange Char.isDigit 1 2) (pSeq (pLit "-") (pSeq (pCount isLowerAZ 3)
    (pSeq (pLit "-") (pRange Char.isDigit 2 4))))

/-- `_contains_time_window` (`normalizer.py` lines 64-79). -/
def containsTimeWindow (text : String) : Bool :=
  let lowered := strLower text
  containsBounded patNextNDays lowered ||
  containsBounded patInNDays lowered ||
  containsBounded patNextWeek lowered ||
  containsBounded patNextMonth lowered ||
  containsBounded patThisWeek lowered ||
  containsBounded patThisMonth lowered ||
  containsBounded (pLit "today") lowered ||
  containsBounded (pLit "tomorrow") lowered ||
  containsBounded (pLit "yesterday") lowered ||
  containsBounded patIsoDate lowered ||
  containsBounded patDmyDate lowered

/-- `\b[a-z]{4}\d{7}\b` -/
def patContainerId : List Char → List (List Char) :=
  pSeq (pCount isLowerAZ 4) (pCount Char.isDigit 7)

/-- `\b\d{6,}\b` -/
def patLongDigits : List Char → List (List Char) :=
  pSeq (pCount Char.isDigit 6) (pStar Char.isDigit)

/-- `_contains_ids` (`normalizer.py` lines 82-88). -/
def containsIds (text : String) : Bool :=
  let lowered := strLower text
  containsBounded patContainerId lowered ||
  containsBounded patLongDigits lowered

/-- The prefixes of `_strip_new_topic_prefix`
(`normalizer.py` lines 93-99). -/
def NEW_TOPIC_PREFIXES : List String :=
  ["new topic:", "new topic -", "ignore previous context:",
   "ignore previous:", "fresh question:"]

/-- `_strip_new_topic_prefix` (`normalizer.py` lines 91-103): prefixes
are recognized on the stripped-and-lowered text, and the slice is taken
from the original text (as in the source). -/
def stripNewTopicPrefix (text : String) : String × Bool :=
  let lowered := strLower (strTrim text)
  match NEW_TOPIC_PREFIXES.find? (fun p => p.data.isPrefixOf lowered.data) with
  | some p => (strTrim ⟨text.data.drop p.length⟩, true)
  | none => (text, false)

/-- `_parse_topic_shift_choice` (`normalizer.py` lines 106-112). -/
def parseTopicShiftChoice (text : String) : Option String :=
  let lowered := strLower (strTrim text)
  if lowered ∈ ["1", "a", "use previous", "use previous context", "use context"]
  then some "use_previous"
  else if lowered ∈ ["2", "b", "new", "new topic", "ignore", "ignore previous"]
  then some "new_topic"
  else none

/-- `_is_control_reply` (`normalizer.py` lines 115-117). -/
def isControlReply (text : String) : Bool :=
  strLower (strTrim text) ∈ CONTROL_REPLIES

/-- The topic-shift candidate dict: raw text, normalized text, list of
added token categories. -/
structure TopicShift where
  raw : String
  normalized : String
  added : List String
deriving DecidableEq

/-- Embedding of `_topic_shift_candidate` (`normalizer.py` lines
120-143). -/
def topicShiftCandidate (raw_question normalized_question : String) :
    Option TopicShift :=
  if raw_question = "" || normalized_question = "" then none
  else
    let raw := strLower (strTrim raw_question)
    let norm := strLower (strTrim normalized_question)
    if raw = norm then none
    else if hasAnaphora raw then none
    else
      let added :=
        (if containsTimeWindow norm && !containsTimeWindow raw
          then ["time_window"] else []) ++
        (if containsIds norm && !containsIds raw then ["ids"] else [])
      if added.isEmpty then none
      else some { raw := raw_question, normalized := normalized_question,
                  added := added }

/-- The pending topic-shift choice stored across turns. -/
structure PendingShift where
  raw : String
  normalized : String
deriving DecidableEq

/-- The slice of the graph state `normalize_node` reads or writes;
`messages` holds the contents of the conversation history. -/
structure NState where
  question_raw : String
  normalized_question : Option String
  messages : List String
  pending_topic_shift : Option PendingShift
  topic_shift_candidate : Option TopicShift
  usage_metadata : Option Usage
deriving DecidableEq

/-- The main body of `normalize_node` after the pending-choice handling
(`normalizer.py` lines 184-259): test mode and a forced new topic, or a
short history, skip the rewrite; otherwise the chat oracle provides the
standalone rewrite (lower-cased), falling back to the lowered question
on failure, and the topic-shift candidate is computed from the
(trimmed, prefix-stripped) question and the normalized text. -/
def normalizeMain (tm : Bool) (oracle : Except Unit (String × Usage))
    (s : NState) (question : String) (forced : Bool) : NState :=
  if tm || forced then
    { s with normalized_question := some (strLower question),
             topic_shift_candidate := none }
  else if s.messages.length ≤ 1 then
    { s with normalized_question := some (strLower question),
             topic_shift_candidate := none }
  else
    match oracle with
    | .ok (content, usage) =>
      let normalized := strLower (strTrim content)
      { s with
        normalized_question := some normalized,
        usage_metadata :=
          some (addUsage (s.usage_metadata.getD usageZero) usage),
        topic_shift_candidate := topicShiftCandidate question normalized }
    | .error _ =>
      let normalized := strLower question
      { s with
        normalized_question := some normalized,
        topic_shift_candidate := topicShiftCandidate question normalized }

/-- Embedding of `normalize_node` (`normalizer.py` lines 146-259). -/
def normalize_node (tm : Bool) (oracle : Except Unit (String × Usage))
    (s : NState) : NState :=
  let question0 := strTrim s.question_raw
  let qf := stripNewTopicPrefix question0
  let question := qf.1
  let forced := qf.2
  let s1 := if forced then { s with question_raw := question } else s
  match s1.pending_topic_shift with
  | some pending =>
    match parseTopicShiftChoice question with
    | some choice =>
      let chosen0 :=
        if choice = "use_previous" then pending.normalized else pending.raw
      let chosen := strTrim (if chosen0 = "" then question else chosen0)
      { s1 with
        question_raw := chosen,
        normalized_question := some (strLower chosen),
        pending_topic_shift := none,
        topic_shift_candidate := none,
        messages := s1.messages ++ [chosen] }
    | none =>
      let s2 :=
        if !isControlReply question then { s1 with pending_topic_shift := none }
        else s1
      normalizeMain tm oracle s2 question forced
  | none => normalizeMain tm oracle s1 question forced

/-! ## graph/nodes/planner.py — deterministic filter construction
(`planner.py` lines 141-284). -/

/-- `extracted = state.get("extracted_ids") or {}`. -/
structure ExtractedIds where
  container_number : List String
  po_numbers : List String
  booking_numbers : List String
  obl_nos : List String
  status_keywords : List String
  location : List String
deriving DecidableEq

/-- `_safe` (`planner.py` lines 141-142). -/
def pySafe (s : String) : String := s.replace "'" "''"

/-- `_any_in` (`planner.py` lines 144-146). -/
def anyIn (field : String) (values : List String) : String :=
  field ++ "/any(t: search.in(t, '" ++
    String.intercalate "," ((values.filter (fun v => v ≠ "")).map pySafe) ++
    "', ','))"

/-- `\bin-?dc\b` -/
def patInDc : List Char → List (List Char) :=
  pSeq (pLit "in") (pSeq (pOptChar '-') (pLit "dc"))

/-- `_mentions_final_destination` (`planner.py` lines 148-158). -/
def mentionsFinalDestination (text : String) : Bool :=
  let lowered := strLower text
  strContains lowered "final destination" ||
  strContains lowered "final_destination" ||
  strContains lowered "distribution center" ||
  strContains lowered "distribution centre" ||
  containsBounded patInDc lowered ||
  containsBounded (pLit "fd") lowered

/-- `container_set = {c for c in containers if c}` (membership view;
Python set iteration order is not used for this value). -/
def containerSet (e : ExtractedIds) : List String :=
  e.container_number.filter (fun c => c ≠ "")

def oblSet (e : ExtractedIds) : List String :=
  e.obl_nos.filter (fun o => o ≠ "")

/-- `planner.py` lines 189-192: identifiers already claimed by the
container class are removed from the other pools. -/
def poNumbers1 (e : ExtractedIds) : List String :=
  if (containerSet e).isEmpty then e.po_numbers
  else e.po_numbers.filter (fun p => ¬ p ∈ containerSet e)

def bookingNumbers1 (e : ExtractedIds) : List String :=
  if (containerSet e).isEmpty then e.booking_numbers
  else e.booking_numbers.filter (fun b => ¬ b ∈ containerSet e)

def oblNos1 (e : ExtractedIds) : List String :=
  if (containerSet e).isEmpty then e.obl_nos
  else e.obl_nos.filter (fun o => ¬ o ∈ containerSet e)

/-- `planner.py` lines 197-201: an identifier in more than one of the
PO/booking/OBL pools is ambiguous. -/
def isAmbiguousId (e : ExtractedIds) (t : String) : Bool :=
  (decide (t ∈ poNumbers1 e) && decide (t ∈ bookingNumbers1 e)) ||
  (decide (t ∈ poNumbers1 e) && decide (t ∈ oblNos1 e)) ||
  (decide (t ∈ bookingNumbers1 e) && decide (t ∈ oblNos1 e))

/-- The ambiguous identifiers as a list.  The source holds them in a
Python set (iteration order unspecified); we fix first-occurrence
order. -/
def ambiguousIds (e : ExtractedIds) : List String :=
  dedupPreserveOrder
    ((poNumbers1 e ++ bookingNumbers1 e ++ oblNos1 e).filter (isAmbiguousId e))

/-- `planner.py` lines 203-206. -/
def poNumbers2 (e : ExtractedIds) : List String :=
  if (ambiguousIds e).isEmpty then poNumbers1 e
  else (poNumbers1 e).filter (fun p => !isAmbiguousId e p)

def bookingNumbers2 (e : ExtractedIds) : List String :=
  if (ambiguousIds e).isEmpty then bookingNumbers1 e
  else (bookingNumbers1 e).filter (fun b => !isAmbiguousId e b)

def oblNos2 (e : ExtractedIds) : List String :=
  if (ambiguousIds e).isEmpty then oblNos1 e
  else (oblNos1 e).filter (fun o => !isAmbiguousId e o)

/-- `has_strong_ids = bool(all_ids)` (`planner.py` lines 209-222). -/
def hasStrongIds (e : ExtractedIds) : Bool :=
  !(containerSet e).isEmpty || !(oblSet e).isEmpty ||
  !(poNumbers2 e).isEmpty || !(bookingNumbers2 e).isEmpty ||
  !(ambiguousIds e).isEmpty

/-- `status_map` (`planner.py` lines 255-263). -/
def STATUS_MAP : List (String × String) :=
  [("on water", "IN_OCEAN"), ("sailing", "IN_OCEAN"),
   ("in ocean", "IN_OCEAN"), ("delivered", "DELIVERED"),
   ("ready for pickup", "READY_FOR_PICKUP"),
   ("empty returned", "EMPTY_RETURNED"),
   ("at discharge port", "AT_DISCHARGE_PORT")]

def statusKeywordsLower (e : ExtractedIds) : List String :=
  e.status_keywords.map strLower

/-- `sorted({status_map[k] for k in status_keywords if k in status_map})`
(`planner.py` lines 264-267). -/
def mappedStatuses (e : ExtractedIds) : List String :=
  (dedupPreserveOrder ((statusKeywordsLower e).filterMap
    (fun k => (STATUS_MAP.find? (fun p => p.1 = k)).map Prod.snd))).mergeSort
    (fun a b => a ≤ b)

/-- The disjunctive clause emitted for ambiguous identifiers
(`planner.py` lines 246-252). -/
def ambiguousClause (e : ExtractedIds) : String :=
  "(" ++ anyIn "po_numbers" (ambiguousIds e) ++ " or " ++
    anyIn "booking_numbers" (ambiguousIds e) ++ " or " ++
    anyIn "obl_nos" (ambiguousIds e) ++ ")"

/-- The `filter_clauses` list built by `planner_node`
(`planner.py` lines 221-280), in source order: the model-proposed
filter (only without strong identifiers), the container clause, the
per-class PO/booking/OBL clauses, the ambiguous-identifier disjunction,
the status clause, the hot-container clause, the location clause. -/
def filterClauses (e : ExtractedIds) (q : String) (llmFilter : Option String) :
    List String :=
  (if (llmFilter.getD "") ≠ "" && !hasStrongIds e
    then ["(" ++ llmFilter.getD "" ++ ")"] else []) ++
  (if !e.container_number.isEmpty then
    ["(" ++ String.intercalate " or "
        (e.container_number.map
          (fun c => "container_number eq '" ++ pySafe c ++ "'")) ++ ")"]
    else []) ++
  (if !(poNumbers2 e).isEmpty then [anyIn "po_numbers" (poNumbers2 e)]
    else []) ++
  (if !(bookingNumbers2 e).isEmpty
    then [anyIn "booking_numbers" (bookingNumbers2 e)] else []) ++
  (if !(oblNos2 e).isEmpty then [anyIn "obl_nos" (oblNos2 e)] else []) ++
  (if !(ambiguousIds e).isEmpty then [ambiguousClause e] else []) ++
  (if !(mappedStatuses e).isEmpty then
    ["(" ++ String.intercalate " or "
        ((mappedStatuses e).map (fun st => "shipment_status eq '" ++ st ++ "'"))
      ++ ")"]
    else []) ++
  (if (statusKeywordsLower e).any (fun k => k = "hot" || k = "priority")
    then ["hot_container_flag eq true"] else []) ++
  (if !e.location.isEmpty then
    ["(" ++ String.intercalate " or "
        (e.location.map (fun loc =>
          "contains(" ++
            (if mentionsFinalDestination q then "final_destination"
              else "discharge_port") ++ ", '" ++ pySafe loc ++ "')")) ++ ")"]
    else [])

/-- `plan["extra_filter"]` after the deterministic strengthening
(`planner.py` lines 282-284): the conjunction of the clauses when any
exist, else the model-proposed filter. -/
def plannerExtraFilter (e : ExtractedIds) (q : String)
    (llmFilter : Option String) : Option String :=
  if (filterClauses e q llmFilter).isEmpty then llmFilter
  else some (String.intercalate " and " (filterClauses e q llmFilter))

/-- The spec's scenario: `5302997239` extracted as both a
purchase-order and a booking number. -/
def extractedAmbig : ExtractedIds :=
  { container_number := [], po_numbers := ["5302997239"],
    booking_numbers := ["5302997239"], obl_nos := [],
    status_keywords := [], location := [] }

/-- A second overlap pattern: `TH2017996` extracted as both a booking
number and a bill-of-lading number. -/
def extractedAmbigBkObl : ExtractedIds :=
  { container_number := [], po_numbers := [],
    booking_numbers := ["TH2017996"], obl_nos := ["TH2017996"],
    status_keywords := [], location := [] }

/-! ## Claim C6 -/

/-- The claim's conditions for raising a topic-shift candidate,
expressed on the (trimmed) raw question and the normalized question
exactly as `_topic_shift_candidate` computes them: the two differ after
trim/lower-normalization, the raw question holds no anaphora marker,
and the normalized question adds a time-window or identifier token
absent from the raw question; both must be non-empty. -/
def topicShiftConditions (rawq normq : String) : Prop :=
  rawq ≠ "" ∧ normq ≠ "" ∧
  strLower (strTrim rawq) ≠ strLower (strTrim normq) ∧
  hasAnaphora (strLower (strTrim rawq)) = false ∧
  ((containsTimeWindow (strLower (strTrim normq)) = true ∧
    containsTimeWindow (strLower (strTrim rawq)) = false) ∨
   (containsIds (strLower (strTrim normq)) = true ∧
    containsIds (strLower (strTrim rawq)) = false))

/-- A state whose raw question is empty while the conversation has
history, so the chat oracle's rewrite supplies the normalized text. -/
def nStateEmptyQ : NState :=
  { question_raw := "",
    normalized_question := none,
    messages := ["where is container msku1234567?", "container msku1234567 is in transit"],
    pending_topic_shift := none,
    topic_shift_candidate := none,
    usage_metadata := none }

/-! # Theorems -/

/-! ### Facts about trimming and lowering -/

theorem toNat_ofNat_valid (n : Nat) (h : n.isValidChar) :
    (Char.ofNat n).toNat = n := by
  simp [Char.ofNat, h, Char.ofNatAux, Char.toNat, UInt32.toNat]

theorem char_eq_iff_toNat (c d : Char) : c = d ↔ c.toNat = d.toNat := by
  constructor
  · intro h; rw [h]
  · intro h
    have h2 : Char.ofNat c.toNat = Char.ofNat d.toNat := by rw [h]
    simpa using h2

theorem toLower_idem (c : Char) : c.toLower.toLower = c.toLower := by
  simp only [Char.toLower]
  by_cases h : c.toNat ≥ 65 ∧ c.toNat ≤ 90
  · rw [if_pos h]
    have hn : (Char.ofNat (c.toNat + 32)).toNat = c.toNat + 32 :=
      toNat_ofNat_valid _ (Or.inl (by omega))
    rw [if_neg]
    rw [hn]
    omega
  · rw [if_neg h, if_neg h]

theorem isSpc_toLower (c : Char) : isSpc c.toLower = isSpc c := by
  simp only [isSpc, Char.toLower]
  by_cases h : c.toNat ≥ 65 ∧ c.toNat ≤ 90
  · rw [if_pos h]
    have hn : (Char.ofNat (c.toNat + 32)).toNat = c.toNat + 32 :=
      toNat_ofNat_valid _ (Or.inl (by omega))
    have hsp : ((' ' : Char).toNat = 32 ∧ ('\t' : Char).toNat = 9 ∧
        ('\r' : Char).toNat = 13 ∧ ('\n' : Char).toNat = 10) := by decide
    simp only [Char.isWhitespace, char_eq_iff_toNat, hn, hsp.1, hsp.2.1,
      hsp.2.2.1, hsp.2.2.2]
    refine Bool.eq_iff_iff.mpr ?_
    simp only [Bool.or_eq_true, decide_eq_true_eq]
    omega
  · rw [if_neg h]

theorem dropWhile_head?_not (p : Char → Bool) (l : List Char) :
    ∀ a : Char, (l.dropWhile p).head? = some a → p a = false := by
  induction l with
  | nil =>
    intro a h
    simp [List.dropWhile] at h
  | cons x xs ih =>
    intro a h
    rw [List.dropWhile_cons] at h
    by_cases hx : p x = true
    · rw [if_pos hx] at h
      exact ih a h
    · rw [if_neg hx] at h
      simp only [List.head?_cons, Option.some_inj] at h
      subst h
      exact Bool.not_eq_true _ ▸ hx

theorem trimChars_idem (cs : List Char) :
    trimChars (trimChars cs) = trimChars cs := by
  unfold trimChars
  have h1 : ((cs.dropWhile isSpc).rdropWhile isSpc).dropWhile isSpc =
      (cs.dropWhile isSpc).rdropWhile isSpc := by
    cases hT : (cs.dropWhile isSpc).rdropWhile isSpc with
    | nil => rfl
    | cons a t' =>
      have hh : (cs.dropWhile isSpc).head? = some a := by
        obtain ⟨t, ht⟩ := List.rdropWhile_prefix isSpc (cs.dropWhile isSpc)
        rw [hT] at ht
        rw [← ht]
        rfl
      have ha := dropWhile_head?_not isSpc cs a hh
      rw [List.dropWhile_cons, if_neg (by simp [ha])]
  rw [h1, List.rdropWhile_idempotent]

theorem trimChars_map_toLower (cs : List Char) :
    trimChars (cs.map Char.toLower) = (trimChars cs).map Char.toLower := by
  have hp : (fun c => isSpc (Char.toLower c)) = isSpc := by
    funext c
    exact isSpc_toLower c
  unfold trimChars List.rdropWhile
  rw [List.dropWhile_map]
  rw [← List.map_reverse, List.dropWhile_map]
  rw [← List.map_reverse]
  simp only [Function.comp_def, hp]

theorem strTrim_idem (s : String) : strTrim (strTrim s) = strTrim s := by
  simp only [strTrim]
  exact congrArg String.mk (trimChars_idem s.data)

theorem strTrim_strLower (s : String) :
    strTrim (strLower s) = strLower (strTrim s) := by
  simp only [strTrim, strLower]
  exact congrArg String.mk (trimChars_map_toLower s.data)

theorem strLower_idem (s : String) : strLower (strLower s) = strLower s := by
  simp only [strLower, List.map_map]
  refine congrArg String.mk ?_
  simp only [Function.comp_def, toLower_idem]

/-- The composite normalization `lower ∘ trim` is a closure operator:
applying it twice is the same as once. -/
theorem lowtrim_idem (s : String) :
    strLower (strTrim (strLower (strTrim s))) = strLower (strTrim s) := by
  rw [strTrim_strLower, strTrim_idem, strLower_idem]

/-! ### Lemmas about de-duplication -/

theorem dedupAux_nodup (l : List String) :
    ∀ seen : List String, (dedupAux seen l).Nodup ∧
      ∀ x ∈ dedupAux seen l, x ∉ seen := by
  induction l with
  | nil => intro seen; simp [dedupAux]
  | cons c rest ih =>
    intro seen
    by_cases hc : c ∈ seen
    · simpa [dedupAux, hc] using ih seen
    · have h := ih (c :: seen)
      refine ⟨?_, ?_⟩
      · simp only [dedupAux, hc, if_false, List.nodup_cons]
        exact ⟨fun hmem => by
          have := h.2 c hmem
          simp at this, h.1⟩
      · intro x hx
        simp only [dedupAux, hc, if_false, List.mem_cons] at hx
        rcases hx with rfl | hx
        · exact hc
        · have := h.2 x hx
          intro hxs
          exact this (List.mem_cons_of_mem _ hxs)

theorem dedupPreserveOrder_nodup (l : List String) :
    (dedupPreserveOrder l).Nodup :=
  (dedupAux_nodup l []).1

/-- Every result of `resolve_allowed_scope` is one of `[]`, the deduped
code list, or a filter of it. -/
theorem resolve_allowed_scope_sublist (cfg : ScopeConfig)
    (user_identity : Option String) (payload_codes : Option Payload) :
    List.Sublist (resolve_allowed_scope cfg user_identity payload_codes)
      (dedupPreserveOrder (requestedCodes payload_codes)) := by
  simp only [resolve_allowed_scope]
  repeat' split
  all_goals
    first
    | exact List.nil_sublist _
    | exact List.Sublist.refl _
    | exact List.filter_sublist _

/-! ## Claims C1 and C9 -/

/-- C1 (code bug evidence): with the unsafe-override flag `false` and a
non-empty registry available, a call with *absent* caller identity does
not deny: it passes the requested codes straight through as the
effective scope.  This contradicts the function's own docstring rule 3
("If user_identity is missing -> Fail closed unless
SHIPMENT_QNA_BOT_ALLOW_UNSAFE_SCOPE=true") and the repository's unit
test `test_resolve_allowed_scope_missing_identity_denied`, which
asserts `resolve_allowed_scope(None, ["A", "B"]) == []`. -/
theorem C1_missing_identity_passthrough :
    resolve_allowed_scope ⟨false, [("user1", ["A", "B", "C"])]⟩ none
        (some (.list ["A", "B"])) = ["A", "B"] ∧
      (["A", "B"] : List String) ≠ [] := by
  constructor
  · rfl
  · decide

/-- C9: `resolve_allowed_scope` returns the empty scope (deny) whenever
the requested code list is absent or empty; every resolved scope is a
duplicate-free, first-occurrence-order-preserving selection from the
normalized requested codes; and concretely, requested codes
`["7","7","9"]` resolve (under a wildcard registry entry) to
`["7","9"]`. -/
theorem C9_resolve_scope_normalization :
    (∀ (cfg : ScopeConfig) (ident : Option String),
      resolve_allowed_scope cfg ident none = [] ∧
      resolve_allowed_scope cfg ident (some (.str "")) = [] ∧
      resolve_allowed_scope cfg ident (some (.list [])) = []) ∧
    (∀ (cfg : ScopeConfig) (ident : Option String) (p : Option Payload),
      (resolve_allowed_scope cfg ident p).Nodup ∧
      List.Sublist (resolve_allowed_scope cfg ident p)
        (dedupPreserveOrder (requestedCodes p))) ∧
    resolve_allowed_scope ⟨false, [("u", ["*"])]⟩ (some "u")
        (some (.list ["7", "7", "9"])) = ["7", "9"] := by
  refine ⟨?_, ?_, ?_⟩
  · intro cfg ident
    refine ⟨rfl, rfl, rfl⟩
  · intro cfg ident p
    have hs := resolve_allowed_scope_sublist cfg ident p
    exact ⟨hs.nodup (dedupPreserveOrder_nodup _), hs⟩
  · rfl

/-! ### Helper lemmas about the issued search calls -/

theorem planExtraFilter_safe (s : RState) (f : String)
    (h : planExtraFilter s = some f) : is_filter_safe f = true := by
  simp only [planExtraFilter] at h
  split at h
  · exact absurd h (by simp)
  · split at h
    · rename_i hsafe
      cases h
      exact hsafe
    · exact absurd h (by simp)

theorem retrieve_calls_extra (env : REnv) (s : RState) :
    ∀ call ∈ (retrieve_node env s).searchCalls,
      call.extra_filter = planExtraFilter s ∨ call.extra_filter = none := by
  intro call hc
  simp only [retrieve_node] at hc
  split at hc
  · simp at hc
  · split at hc
    · simp at hc
    · split at hc
      · simp at hc
      · split at hc
        · simp only [List.mem_singleton] at hc
          subst hc
          left; rfl
        · split at hc
          · split at hc
            all_goals
              simp only [List.mem_cons, List.mem_singleton, List.not_mem_nil,
                or_false] at hc
              rcases hc with rfl | rfl
              · left; rfl
              · right; rfl
          · simp only [List.mem_singleton] at hc
            subst hc
            left; rfl

/-! ## Claim C10 -/

/-- C10: when the intent is `analytics`, `retrieve_node` returns
immediately with an empty hit list and an aggregate block of count 0
and no facets, issues no embedding call and no search call, and leaves
every other state field unchanged. -/
theorem C10_analytics_short_circuit (env : REnv) (s : RState)
    (h : s.intent = "analytics") :
    retrieve_node env s =
      { state :=
          { s with
            hits := [],
            idx_analytics := some { count := some 0, facets := none } },
        searchCalls := [], embedCalls := 0 } := by
  simp [retrieve_node, h, analyticsSkipState]

theorem C10_witness :
    retrieve_node envDown { stateBase with intent := "analytics" } =
      { state :=
          { stateBase with
            intent := "analytics",
            hits := [],
            idx_analytics := some { count := some 0, facets := none } },
        searchCalls := [], embedCalls := 0 } :=
  C10_analytics_short_circuit envDown { stateBase with intent := "analytics" } rfl

/-! ## Claim C2 -/

/-- C2 counterexample: a call of `retrieve_node` with an *empty*
authorized scope but intent `analytics` returns the empty hit list
without recording any error (the analytics branch returns before the
empty-scope check), refuting the claim that *every* empty-scope call
records an error. -/
theorem C2_counterexample :
    ({ stateBase with
        intent := "analytics",
        consignee_codes := [] } : RState).consignee_codes = [] ∧
    (retrieve_node envDown
        { stateBase with
          intent := "analytics",
          consignee_codes := [] }).state.errors = [] ∧
    (retrieve_node envDown
        { stateBase with
          intent := "analytics",
          consignee_codes := [] }).state.hits = [] ∧
    (retrieve_node envDown
        { stateBase with
          intent := "analytics",
          consignee_codes := [] }).searchCalls = [] := by
  refine ⟨rfl, rfl, rfl, rfl⟩

/-- C2 (amended): for every call of `retrieve_node` whose intent is not
`analytics`, an empty authorized scope yields an empty hit list with
the missing-scope error appended and no search or embedding call
issued; and every scope list whose members all strip to the empty
string renders the consignee authorization predicate to the
always-false filter string `"false"`. -/
theorem C2_empty_scope_fail_closed :
    (∀ (env : REnv) (s : RState), s.intent ≠ "analytics" →
      s.consignee_codes = [] →
      (retrieve_node env s).state.hits = [] ∧
      (retrieve_node env s).state.errors =
        s.errors ++ ["Missing consignee scope; cannot retrieve."] ∧
      (retrieve_node env s).searchCalls = [] ∧
      (retrieve_node env s).embedCalls = 0) ∧
    (∀ (cfg : SearchToolConfig) (codes : List String),
      (∀ c ∈ codes, strTrim c = "") →
      consigneeFilter cfg codes = "false") := by
  constructor
  · intro env s hintent hcodes
    simp [retrieve_node, hintent, hcodes, emptyScopeState]
  · intro cfg codes h
    unfold consigneeFilter
    split
    · rfl
    · have hclean : codes.filter (fun c => c ≠ "" && strTrim c ≠ "") = [] := by
        rw [List.filter_eq_nil_iff]
        intro c hc
        simp [h c hc]
      simp only [hclean]
      simp

theorem C2_witness :
    (retrieve_node envDown { stateBase with consignee_codes := [] }).state.errors =
        ["Missing consignee scope; cannot retrieve."] ∧
    (retrieve_node envDown
        { stateBase with consignee_codes := [] }).searchCalls = [] ∧
    consigneeFilter ⟨"consignee_code_ids", true⟩ [" ", ""] = "false" := by
  have h := C2_empty_scope_fail_closed
  refine ⟨?_, ?_, ?_⟩
  · simpa using (h.1 envDown { stateBase with consignee_codes := [] }
      (by decide) rfl).2.1
  · exact (h.1 envDown { stateBase with consignee_codes := [] }
      (by decide) rfl).2.2.1
  · exact h.2 ⟨"consignee_code_ids", true⟩ [" ", ""] (by decide)

/-! ## Claim C3 -/

/-- C3: every filter string forwarded to the search engine as the
plan's extra filter passed `_is_filter_safe`; a safe filter's tokens
(computed outside quoted literals) of length greater than one are all
members of the keyword/operator allow-list or of the closed field
allow-list; and a plan filter rejected by `_is_filter_safe` is dropped
in its entirety — every issued search call carries no extra filter —
rather than raised or sent. -/
theorem C3_filter_allowlist_invariant :
    (∀ (env : REnv) (s : RState), ∀ call ∈ (retrieve_node env s).searchCalls,
      ∀ f, call.extra_filter = some f → is_filter_safe f = true) ∧
    (∀ f : String, is_filter_safe f = true →
      ∀ t ∈ filterTokens f, 1 < t.length →
        t ∈ FILTER_KEYWORDS ∨ t ∈ FILTER_FIELDS) ∧
    (∀ (env : REnv) (s : RState),
      is_filter_safe
          (strTrim ((s.retrieval_plan.getD emptyPlan).extra_filter.getD "")) =
        false →
      ∀ call ∈ (retrieve_node env s).searchCalls, call.extra_filter = none) := by
  refine ⟨?_, ?_, ?_⟩
  · intro env s call hc f hf
    rcases retrieve_calls_extra env s call hc with h | h
    · exact planExtraFilter_safe s f (h ▸ hf)
    · rw [h] at hf
      exact absurd hf (by simp)
  · intro f hsafe t ht hlen
    unfold is_filter_safe at hsafe
    by_cases hf : f = ""
    · subst hf
      simp [filterTokens, scrubQuotes, scrubQuotesF, wordRuns, wordRunsF] at ht
    · rw [if_neg hf] at hsafe
      by_cases he : (filterTokens f).isEmpty = true
      · rw [List.isEmpty_iff] at he
        rw [he] at ht
        simp at ht
      · rw [if_neg he, List.all_eq_true] at hsafe
        have ht2 := hsafe t ht
        simp only [Bool.or_eq_true, decide_eq_true_eq, beq_iff_eq] at ht2
        rcases ht2 with (hk | h1) | hfld
        · exact Or.inl hk
        · omega
        · exact Or.inr hfld
  · intro env s hUnsafeF call hc
    have hnone : planExtraFilter s = none := by
      simp only [planExtraFilter]
      split
      · rfl
      · simp [hUnsafeF]
    rcases retrieve_calls_extra env s call hc with h | h
    · rw [h, hnone]
    · exact h

theorem C3_witness :
    (retrieve_node envOkSearch stateUnsafeFilter).searchCalls.map
        SearchCall.extra_filter = [none] := by
  have h := C3_filter_allowlist_invariant.2.2 envOkSearch stateUnsafeFilter
    (by decide)
  have hcalls : (retrieve_node envOkSearch stateUnsafeFilter).searchCalls =
      [retrieveCall1 envOkSearch stateUnsafeFilter] := rfl
  rw [hcalls] at h ⊢
  simp only [List.map_cons, List.map_nil]
  rw [h (retrieveCall1 envOkSearch stateUnsafeFilter) (by simp)]

/-! ## Claim C7 -/

/-- C7: for a `next N days` window the post-filter keeps exactly the
(hydrated) hits whose parsed date lies in the half-open interval
`[start_of_today, start_of_today + N days)`; a hit dated exactly at the
start of today is kept (for a positive window), a hit timestamped
exactly at `now + N days` is excluded, hits with a missing or
unparsable date are excluded, and the `now` reference is taken from the
state's `now_utc` when present and parsable, not from the wall clock. -/
theorem C7_date_window_post_filter :
    (∀ (start : Int) (hits : List Hit) (f : String) (N : Int),
      postFilterHits start hits ⟨some ⟨f, N, "next"⟩, none⟩ =
        (hits.map hydrate).filter
          (fun h => dateOk start h (some ⟨f, N, "next"⟩))) ∧
    (∀ (start : Int) (f : String) (N : Int) (h : Hit) (t : Int),
      parseDt (getField h f) = some t →
      (dateOk start h (some ⟨f, N, "next"⟩) = true ↔
        start ≤ t ∧ t < start + N * 86400)) ∧
    (∀ (start : Int) (f : String) (N : Int) (h : Hit),
      parseDt (getField h f) = none →
      dateOk start h (some ⟨f, N, "next"⟩) = false) ∧
    (∀ (now : Int) (f : String) (N : Int) (h : Hit), 0 < N →
      parseDt (getField h f) = some (startOfDay now) →
      dateOk (startOfDay now) h (some ⟨f, N, "next"⟩) = true) ∧
    (∀ (now : Int) (f : String) (N : Int) (h : Hit),
      parseDt (getField h f) = some (now + N * 86400) →
      dateOk (startOfDay now) h (some ⟨f, N, "next"⟩) = false) ∧
    (∀ (env : REnv) (s : RState) (t : Int),
      s.now_utc = some (.date t) → getNowUtc env s = t) := by
  refine ⟨?_, ?_, ?_, ?_, ?_, ?_⟩
  · intro start hits f N
    simp [postFilterHits, pfTruthy, delayOk, Bool.and_true]
  · intro start f N h t hp
    simp [dateOk, hp]
  · intro start f N h hp
    simp [dateOk, hp]
  · intro now f N h hN hp
    have h86 : (0 : Int) ≤ now % 86400 := Int.emod_nonneg now (by norm_num)
    simp [dateOk, hp, startOfDay]
    omega
  · intro now f N h hp
    have h86 : (0 : Int) ≤ now % 86400 := Int.emod_nonneg now (by norm_num)
    simp [dateOk, hp, startOfDay]
    omega
  · intro env s t h
    simp [getNowUtc, parseDt, h]

theorem C7_witness :
    dateOk (startOfDay 259300) ⟨[("eta_dp_date", .date 259200)], []⟩
        (some ⟨"eta_dp_date", 7, "next"⟩) = true ∧
    dateOk (startOfDay 259300) ⟨[("eta_dp_date", .date (259300 + 7 * 86400))], []⟩
        (some ⟨"eta_dp_date", 7, "next"⟩) = false ∧
    getNowUtc envDown { stateBase with now_utc := some (.date 42) } = 42 := by
  have h := C7_date_window_post_filter
  refine ⟨?_, ?_, ?_⟩
  · exact h.2.2.2.1 259300 "eta_dp_date" 7
      ⟨[("eta_dp_date", .date 259200)], []⟩ (by norm_num) (by decide)
  · exact h.2.2.2.2.1 259300 "eta_dp_date" 7
      ⟨[("eta_dp_date", .date (259300 + 7 * 86400))], []⟩ (by decide)
  · exact h.2.2.2.2.2 envDown { stateBase with now_utc := some (.date 42) }
      42 rfl

/-! ## Claim C5 -/

/-- C5: if the Judge's evaluation call raises, or returns text from
which no JSON verdict can be parsed, `judge_node` sets `is_satisfied`
to true and `reflection_feedback` to null; and when the hit list is
empty it sets `is_satisfied` to true without invoking the evaluation
service at all. -/
theorem C5_judge_fail_safe :
    (∀ (jp : String → Option JudgeVerdict) (s : RState),
      (judge_node false (.error ()) jp s).state.is_satisfied = some true ∧
      (judge_node false (.error ()) jp s).state.reflection_feedback = none) ∧
    (∀ (jp : String → Option JudgeVerdict) (s : RState)
        (content : String) (usage : Usage),
      judgeParsedVerdict jp content = none →
      (judge_node false (.ok (content, usage)) jp s).state.is_satisfied =
          some true ∧
      (judge_node false (.ok (content, usage)) jp s).state.reflection_feedback =
          none) ∧
    (∀ (jp : String → Option JudgeVerdict)
        (chat : Except Unit (String × Usage)) (s : RState),
      s.hits = [] →
      (judge_node false chat jp s).state.is_satisfied = some true ∧
      (judge_node false chat jp s).state.reflection_feedback = none ∧
      (judge_node false chat jp s).chatCalls = 0) := by
  refine ⟨?_, ?_, ?_⟩
  · intro jp s
    by_cases hh : s.hits.isEmpty
    · simp [judge_node, hh]
    · simp [judge_node, hh]
  · intro jp s content usage hparse
    by_cases hh : s.hits.isEmpty
    · simp [judge_node, hh]
    · simp [judge_node, hh, hparse, defaultVerdict]
  · intro jp chat s hh
    have : s.hits.isEmpty = true := by simp [hh]
    simp [judge_node, this]

/-- Concrete instantiation of C5: a response with a brace but
unparsable JSON, and separately an empty hit list. -/
theorem C5_witness :
    (judge_node false (.ok ("no json here \x7b oops", usageZero))
        (fun _ => none) { stateBase with hits := [⟨[], []⟩] }).state.is_satisfied =
      some true ∧
    (judge_node false (.error ()) (fun _ => none)
        { stateBase with hits := [⟨[], []⟩] }).state.reflection_feedback = none ∧
    (judge_node false (.error ()) (fun _ => none) stateBase).chatCalls = 0 := by
  have h := C5_judge_fail_safe
  refine ⟨?_, ?_, ?_⟩
  · exact (h.2.1 (fun _ => none) { stateBase with hits := [⟨[], []⟩] }
      "no json here \x7b oops" usageZero rfl).1
  · exact (h.1 (fun _ => none) { stateBase with hits := [⟨[], []⟩] }).2
  · exact (h.2.2 (fun _ => none) (.error ()) stateBase rfl).2.2

theorem turnLoopPlans_le (sat : Nat → Bool) (maxR : Nat) :
    ∀ (k a r : Nat), maxR - r ≤ k →
      turnLoopPlans sat maxR a r ≤ maxR - r + 1 := by
  intro k
  induction k with
  | zero =>
    intro a r hk
    unfold turnLoopPlans
    split
    · omega
    · split
      · omega
      · omega
  | succ k ih =>
    intro a r hk
    unfold turnLoopPlans
    split
    · omega
    · split
      · omega
      · have := ih (a + 1) (r + 1) (by omega)
        omega

/-- C4: `judge_node` never decreases the retry counter — the output
counter is either the input one or its increment by exactly one, and
(read at default 0) is monotonically non-decreasing; on the evaluated
path the counter is incremented exactly when the parsed verdict is not
`satisfied`; and the (spec-modelled) reflection loop performs at most
`max_retries + 1` planning attempts whatever verdicts the Judge
returns. -/
theorem C4_retry_monotone_and_bounded :
    (∀ (tm : Bool) (chat : Except Unit (String × Usage))
        (jp : String → Option JudgeVerdict) (s : RState),
      ((judge_node tm chat jp s).state.retry_count = s.retry_count ∨
        (judge_node tm chat jp s).state.retry_count =
          some (s.retry_count.getD 0 + 1)) ∧
      s.retry_count.getD 0 ≤
        ((judge_node tm chat jp s).state.retry_count).getD 0) ∧
    (∀ (jp : String → Option JudgeVerdict) (s : RState)
        (content : String) (usage : Usage),
      s.hits ≠ [] →
      (judge_node false (.ok (content, usage)) jp s).state.retry_count =
        (if ((judgeParsedVerdict jp content).getD defaultVerdict).decision =
            some "satisfied"
          then s.retry_count
          else some (s.retry_count.getD 0 + 1))) ∧
    (∀ (sat : Nat → Bool) (maxRetries : Nat),
      turnLoopPlans sat maxRetries 0 0 ≤ maxRetries + 1) := by
  refine ⟨?_, ?_, ?_⟩
  · intro tm chat jp s
    rcases chat with e | ⟨content, usage⟩
    · unfold judge_node
      split
      · exact ⟨Or.inl rfl, le_refl _⟩
      · split
        · exact ⟨Or.inl rfl, le_refl _⟩
        · exact ⟨Or.inl rfl, le_refl _⟩
    · unfold judge_node
      split
      · exact ⟨Or.inl rfl, le_refl _⟩
      · split
        · exact ⟨Or.inl rfl, le_refl _⟩
        · simp only
          split
          · exact ⟨Or.inl rfl, le_refl _⟩
          · refine ⟨Or.inr rfl, ?_⟩
            simp only [Option.getD_some]
            omega
  · intro jp s content usage hh
    have hh' : s.hits.isEmpty = false := by
      simpa [List.isEmpty_iff] using hh
    unfold judge_node
    simp only [hh', Bool.false_eq_true, if_false]
    split
    · rename_i hsat
      rw [if_pos (of_decide_eq_true hsat)]
    · rename_i hsat
      rw [if_neg (fun h => hsat (decide_eq_true h))]
  · intro sat maxRetries
    have := turnLoopPlans_le sat maxRetries maxRetries 0 0 (by omega)
    omega

/-- Concrete instantiation of C4's evaluated-path conjunct: a retry
verdict increments the counter from unset (0) to 1. -/
theorem C4_witness :
    (judge_node false (.ok ("\x7b\x7d", usageZero))
        (fun _ => some { decision := some "retry", feedback := some "fix" })
        { stateBase with hits := [⟨[], []⟩] }).state.retry_count = some 1 := by
  have h := C4_retry_monotone_and_bounded.2.1
    (fun _ => some { decision := some "retry", feedback := some "fix" })
    { stateBase with hits := [⟨[], []⟩] } "\x7b\x7d" usageZero (by decide)
  simpa using h

/-! ## Claim C8 -/

theorem mem_dedupAux (l : List String) :
    ∀ (seen : List String) (x : String),
      x ∈ dedupAux seen l ↔ x ∈ l ∧ x ∉ seen := by
  induction l with
  | nil =>
    intro seen x
    simp [dedupAux]
  | cons c rest ih =>
    intro seen x
    by_cases hc : c ∈ seen
    · rw [dedupAux, if_pos hc, ih]
      constructor
      · rintro ⟨hx, hns⟩
        exact ⟨List.mem_cons_of_mem _ hx, hns⟩
      · rintro ⟨hx, hns⟩
        rcases List.mem_cons.mp hx with rfl | hx
        · exact absurd hc hns
        · exact ⟨hx, hns⟩
    · rw [dedupAux, if_neg hc]
      constructor
      · intro hx
        rcases List.mem_cons.mp hx with rfl | hx
        · exact ⟨List.mem_cons_self _ _, hc⟩
        · rw [ih] at hx
          refine ⟨List.mem_cons_of_mem _ hx.1, ?_⟩
          intro hs
          exact hx.2 (List.mem_cons_of_mem _ hs)
      · rintro ⟨hx, hns⟩
        rcases List.mem_cons.mp hx with rfl | hx
        · exact List.mem_cons_self _ _
        · by_cases hxc : x = c
          · subst hxc
            exact List.mem_cons_self _ _
          · apply List.mem_cons_of_mem
            rw [ih]
            exact ⟨hx, by simp [hxc, hns]⟩

theorem mem_dedupPreserveOrder (l : List String) (x : String) :
    x ∈ dedupPreserveOrder l ↔ x ∈ l := by
  unfold dedupPreserveOrder
  rw [mem_dedupAux]
  simp

/-- C8: an extracted identifier present in more than one of the
purchase-order, booking and bill-of-lading pools (after
container-class removal) — in any of the three overlap patterns:
PO∩booking, PO∩OBL or booking∩OBL — is removed from every per-class
clause (it is absent from the final PO, booking and OBL value lists),
is recorded as ambiguous, and the planner emits the single disjunctive
clause testing membership across all three collection fields
(`po_numbers or booking_numbers or obl_nos`) among the filter clauses,
instead of ANDing the per-class filters. -/
theorem C8_ambiguous_id_or_across_classes :
    ∀ (e : ExtractedIds) (q : String) (llm : Option String) (t : String),
      (t ∈ poNumbers1 e ∧ t ∈ bookingNumbers1 e) ∨
        (t ∈ poNumbers1 e ∧ t ∈ oblNos1 e) ∨
        (t ∈ bookingNumbers1 e ∧ t ∈ oblNos1 e) →
      (t ∉ poNumbers2 e ∧ t ∉ bookingNumbers2 e ∧ t ∉ oblNos2 e) ∧
      t ∈ ambiguousIds e ∧
      ambiguousClause e ∈ filterClauses e q llm := by
  intro e q llm t hover
  have hamb : isAmbiguousId e t = true := by
    rcases hover with ⟨h1, h2⟩ | ⟨h1, h2⟩ | ⟨h1, h2⟩ <;>
      simp [isAmbiguousId, h1, h2]
  have htA : t ∈ ambiguousIds e := by
    unfold ambiguousIds
    rw [mem_dedupPreserveOrder]
    rw [List.mem_filter]
    refine ⟨?_, hamb⟩
    rw [List.mem_append]
    rcases hover with ⟨h1, _⟩ | ⟨h1, _⟩ | ⟨h1, _⟩
    · exact Or.inl (List.mem_append.mpr (Or.inl h1))
    · exact Or.inl (List.mem_append.mpr (Or.inl h1))
    · exact Or.inl (List.mem_append.mpr (Or.inr h1))
  have hne : (ambiguousIds e).isEmpty = false := by
    have hnn := List.ne_nil_of_mem htA
    simp [List.isEmpty_iff, hnn]
  refine ⟨⟨?_, ?_, ?_⟩, htA, ?_⟩
  · unfold poNumbers2
    rw [if_neg (by simp [hne])]
    intro hmem
    rw [List.mem_filter] at hmem
    rw [hamb] at hmem
    simp at hmem
  · unfold bookingNumbers2
    rw [if_neg (by simp [hne])]
    intro hmem
    rw [List.mem_filter] at hmem
    rw [hamb] at hmem
    simp at hmem
  · unfold oblNos2
    rw [if_neg (by simp [hne])]
    intro hmem
    rw [List.mem_filter] at hmem
    rw [hamb] at hmem
    simp at hmem
  · unfold filterClauses
    simp only [hne, Bool.not_false, if_true, List.mem_append,
      List.mem_singleton]
    tauto

theorem C8_witness :
    ("5302997239" ∈ ambiguousIds extractedAmbig ∧
      "5302997239" ∉ poNumbers2 extractedAmbig ∧
      "5302997239" ∉ bookingNumbers2 extractedAmbig ∧
      ambiguousClause extractedAmbig ∈
        filterClauses extractedAmbig "where is 5302997239" none) ∧
    ("TH2017996" ∈ ambiguousIds extractedAmbigBkObl ∧
      "TH2017996" ∉ bookingNumbers2 extractedAmbigBkObl ∧
      "TH2017996" ∉ oblNos2 extractedAmbigBkObl ∧
      ambiguousClause extractedAmbigBkObl ∈
        filterClauses extractedAmbigBkObl "where is TH2017996" none) := by
  have h := C8_ambiguous_id_or_across_classes extractedAmbig
    "where is 5302997239" none "5302997239" (Or.inl (by decide))
  have h2 := C8_ambiguous_id_or_across_classes extractedAmbigBkObl
    "where is TH2017996" none "TH2017996" (Or.inr (Or.inr (by decide)))
  exact ⟨⟨h.2.1, h.1.1, h.1.2.1, h.2.2⟩,
    ⟨h2.2.1, h2.1.2.1, h2.1.2.2, h2.2.2⟩⟩

theorem topicShiftCandidate_isSome (rawq normq : String) :
    (topicShiftCandidate rawq normq).isSome = true ↔
      topicShiftConditions rawq normq := by
  unfold topicShiftCandidate topicShiftConditions
  by_cases h1 : rawq = ""
  · simp [h1]
  by_cases h2 : normq = ""
  · simp [h1, h2]
  rw [if_neg (by simp [h1, h2])]
  by_cases h3 : strLower (strTrim rawq) = strLower (strTrim normq)
  · simp [h3, h1, h2]
  rw [if_neg h3]
  by_cases h4 : hasAnaphora (strLower (strTrim rawq)) = true
  · simp [h4, h1, h2, h3]
  have h4f : hasAnaphora (strLower (strTrim rawq)) = false := by
    simpa using h4
  rw [if_neg h4]
  by_cases h5 : containsTimeWindow (strLower (strTrim normq)) = true ∧
      containsTimeWindow (strLower (strTrim rawq)) = false
  · simp [h5.1, h5.2, h1, h2, h3, h4f]
  by_cases h6 : containsIds (strLower (strTrim normq)) = true ∧
      containsIds (strLower (strTrim rawq)) = false
  · constructor
    · intro _
      exact ⟨h1, h2, h3, h4f, Or.inr h6⟩
    · intro _
      rcases htw : containsTimeWindow (strLower (strTrim normq)) <;>
        rcases hrw : containsTimeWindow (strLower (strTrim rawq)) <;>
          simp [htw, hrw, h6.1, h6.2]
  · constructor
    · intro hsome
      rcases htw : containsTimeWindow (strLower (strTrim normq)) <;>
        rcases hrw : containsTimeWindow (strLower (strTrim rawq)) <;>
          rcases hin : containsIds (strLower (strTrim normq)) <;>
            rcases hir : containsIds (strLower (strTrim rawq)) <;>
              simp_all
    · intro hc
      rcases hc.2.2.2.2 with hx | hx
      · exact absurd hx h5
      · exact absurd hx h6

/-- `stripNewTopicPrefix` of a trimmed string yields a trimmed string. -/
theorem stripNewTopicPrefix_trimmed (x : String) :
    strTrim ((stripNewTopicPrefix (strTrim x)).1) =
      (stripNewTopicPrefix (strTrim x)).1 := by
  simp only [stripNewTopicPrefix]
  cases h : NEW_TOPIC_PREFIXES.find?
      (fun p => p.data.isPrefixOf (strLower (strTrim (strTrim x))).data) with
  | none =>
    simp only [h]
    exact strTrim_idem x
  | some p =>
    simp only [h]
    exact strTrim_idem _

/-- The non-forced case returns the input text unchanged. -/
theorem stripNewTopicPrefix_false {text q : String}
    (h : stripNewTopicPrefix text = (q, false)) : q = text := by
  simp only [stripNewTopicPrefix] at h
  cases hf : NEW_TOPIC_PREFIXES.find?
      (fun p => p.data.isPrefixOf (strLower (strTrim text)).data) with
  | none =>
    rw [hf] at h
    simp only [Prod.mk.injEq] at h
    exact h.1.symm
  | some p =>
    rw [hf] at h
    simp at h

/-- When the normalized question is just the lowered (trimmed) raw
question, the topic-shift conditions cannot hold. -/
theorem topicShiftConditions_self_false (q : String)
    (hq : strTrim q = q) : ¬ topicShiftConditions q (strLower q) := by
  intro hc
  apply hc.2.2.1
  rw [hq, strTrim_strLower, hq, strLower_idem]

theorem normalizeMain_iff (tm : Bool) (oracle : Except Unit (String × Usage))
    (s : NState) (question : String) (forced : Bool)
    (hq : strTrim question = question)
    (hraw : strTrim s.question_raw = question) :
    ((normalizeMain tm oracle s question forced).topic_shift_candidate).isSome
        = true ↔
      topicShiftConditions
        (strTrim (normalizeMain tm oracle s question forced).question_raw)
        ((normalizeMain tm oracle s question forced).normalized_question.getD
          "") := by
  have hdeg := topicShiftConditions_self_false question hq
  unfold normalizeMain
  split
  · refine iff_of_false (by simp) ?_
    rw [hraw]
    exact hdeg
  · split
    · refine iff_of_false (by simp) ?_
      rw [hraw]
      exact hdeg
    · match oracle with
      | .ok (content, usage) =>
        dsimp only
        rw [hraw]
        exact topicShiftCandidate_isSome question (strLower (strTrim content))
      | .error _ =>
        dsimp only
        rw [hraw]
        exact topicShiftCandidate_isSome question (strLower question)

/-- C6 (amended): `normalize_node` attaches a topic-shift candidate if
and only if the (trimmed) raw question and the normalized question are
both non-empty, the two differ after trim/lower normalization, the raw
question contains no anaphora marker, and the normalized question
contains a time-window or identifier token absent from the raw
question.  In particular no candidate is ever produced when the raw and
normalized questions are identical. -/
theorem C6_topic_shift_iff (tm : Bool) (oracle : Except Unit (String × Usage))
    (s : NState) :
    ((normalize_node tm oracle s).topic_shift_candidate).isSome = true ↔
      topicShiftConditions
        (strTrim (normalize_node tm oracle s).question_raw)
        ((normalize_node tm oracle s).normalized_question.getD "") := by
  unfold normalize_node
  rcases hsp : stripNewTopicPrefix (strTrim s.question_raw) with ⟨question, forced⟩
  have hq : strTrim question = question := by
    have h := stripNewTopicPrefix_trimmed s.question_raw
    rw [hsp] at h
    exact h
  simp only [hsp]
  cases forced with
  | false =>
    have hqeq : question = strTrim s.question_raw := stripNewTopicPrefix_false hsp
    have hraw : strTrim s.question_raw = question := hqeq.symm
    rw [if_neg Bool.false_ne_true]
    cases hpend : s.pending_topic_shift with
    | none =>
      exact normalizeMain_iff tm oracle s question false hq hraw
    | some pending =>
      cases hch : parseTopicShiftChoice question with
      | some choice =>
        refine iff_of_false (by simp) ?_
        rw [strTrim_idem]
        exact topicShiftConditions_self_false _ (strTrim_idem _)
      | none =>
        have hraw2 : strTrim ((if (!isControlReply question) = true then
            { s with pending_topic_shift := none } else s)).question_raw =
              question := by
          split
          · exact hraw
          · exact hraw
        exact normalizeMain_iff tm oracle _ question false hq hraw2
  | true =>
    rw [if_pos rfl]
    cases hpend : s.pending_topic_shift with
    | none =>
      exact normalizeMain_iff tm oracle _ question true hq hq
    | some pending =>
      cases hch : parseTopicShiftChoice question with
      | some choice =>
        refine iff_of_false (by simp) ?_
        rw [strTrim_idem]
        exact topicShiftConditions_self_false _ (strTrim_idem _)
      | none =>
        have hraw2 : strTrim ((if (!isControlReply question) = true then
            { { s with
                question_raw := question,
                pending_topic_shift := some pending } with
                pending_topic_shift := none }
            else { s with
                question_raw := question,
                pending_topic_shift := some pending })).question_raw =
              question := by
          split
          · exact hq
          · exact hq
        exact normalizeMain_iff tm oracle _ question true hq hraw2

/-- C6 counterexample: with an empty raw question and a rewrite that
contains a time-window token, every condition of the claim holds — the
normalized question differs from the raw question, the raw question
contains no anaphora marker, and the normalized question adds a
time-window token absent from the raw question — yet `normalize_node`
attaches no topic-shift candidate (`_topic_shift_candidate` returns
`None` for a falsy raw question).  The claim's "if and only if"
therefore fails without a non-emptiness proviso. -/
theorem C6_counterexample :
    (normalize_node false (.ok ("arriving next 5 days", usageZero))
        nStateEmptyQ).topic_shift_candidate = none ∧
    (normalize_node false (.ok ("arriving next 5 days", usageZero))
        nStateEmptyQ).normalized_question = some "arriving next 5 days" ∧
    (normalize_node false (.ok ("arriving next 5 days", usageZero))
        nStateEmptyQ).question_raw = "" ∧
    ("" : String) ≠ "arriving next 5 days" ∧
    hasAnaphora "" = false ∧
    containsTimeWindow "arriving next 5 days" = true ∧
    containsTimeWindow "" = false := by
  refine ⟨rfl, rfl, rfl, by decide, by decide, by decide, by decide⟩

end ShipmentQnaBot
